import Mathlib

/-!
# The ZFS Posix layer file operations (`module/zfs/zpl_file.c`)

A shallow embedding of `zpl_readdir`, `zpl_read_common`, `zpl_read`,
`zpl_write_common`, `zpl_write`, `zpl_mmap`, `zpl_readpage` and
`zpl_writepage`, and theorems about them.

Conventions of the embedding.

* C integers are `Int`/`Nat` with explicit wrap-around.  The data model is
  LP64 (the 64-bit Linux kernel): `int` has 32 bits, `size_t` and
  `unsigned long` are unsigned 64-bit, `ssize_t` and `loff_t` are signed
  64-bit.  Signed arithmetic wraps, as the kernel is built.
* A buffer pointer is modelled by the memory it points at, a function from
  the byte index to the byte.
* The storage engine (`zfs_read`, `zfs_write`, `zfs_readdir`, and the inode
  size it maintains) is not part of this file: it is a parameter, a record
  of arbitrary functions over an arbitrary engine state.
* The world carries, besides the engine state, a ghost trace of the calls
  made into the engine.
-/

namespace Zpl

/-! ## C integer conversions (LP64) -/

/-- Conversion to `int`: two's complement, 32 bits. -/
def to_int (x : Int) : Int := (x + 2 ^ 31) % 2 ^ 32 - 2 ^ 31

/-- Conversion to `ssize_t` or `loff_t`: two's complement, 64 bits. -/
def to_ssize_t (x : Int) : Int := (x + 2 ^ 63) % 2 ^ 64 - 2 ^ 63

/-- Conversion to `size_t` or `unsigned long`: modulo 2^64. -/
def to_size_t (x : Int) : Nat := (x % 2 ^ 64).toNat

/-! ## Data model -/

/-- Memory behind a buffer pointer: the byte at each index. -/
abbrev Buf := Nat → Nat

/-- The `uio_seg_t` enumeration. -/
inductive uio_seg_t where
  | UIO_USERSPACE
  | UIO_SYSSPACE
  | UIO_USERISPACE
  deriving DecidableEq, Repr

/-- The `struct iovec`: `iov_base` is the memory the base pointer refers to. -/
structure iovec where
  iov_base : Buf
  iov_len : Nat

/-- The `uio_t` I/O descriptor, with the fields this file sets. -/
structure uio_t where
  uio_iov : iovec
  uio_resid : Int
  uio_iovcnt : Int
  uio_loffset : Int
  uio_limit : Int
  uio_segflg : uio_seg_t

/-- What the kernel headers and the build supply: constants, whether the
`ASSERT` macros are compiled in, and the current credential. -/
structure Kernel where
  PAGE_CACHE_SIZE : Nat
  EIO : Int
  O_DIRECT : Int
  MAXOFFSET_T : Int
  debug : Bool
  cred : Nat

/-- The constants are those of a C kernel: a positive page size that fits a
signed 64-bit count, and a positive `int` errno. -/
def Kernel.wf (K : Kernel) : Prop :=
  0 < K.PAGE_CACHE_SIZE ∧ K.PAGE_CACHE_SIZE < 2 ^ 63 ∧ 0 < K.EIO ∧ K.EIO < 2 ^ 31

/-- The storage engine behind the Posix layer, over its own state `σ` (the
inode as the engine sees it).  Every primitive returns the engine's status
(zero, or a positive errno) first.
`zfs_read` also returns the descriptor, the buffer memory and the state it
leaves; `zfs_write` the descriptor and the state; `zfs_readdir` the new
directory position and the state. -/
structure Engine (σ : Type) where
  i_size_read : σ → Int
  zfs_read : σ → uio_t → Int → Nat → Int × uio_t × Buf × σ
  zfs_write : σ → uio_t → Int → Nat → Int × uio_t × σ
  zfs_readdir : σ → Int → Nat → Int × Int × σ

/-- A call made into the engine, as recorded in the ghost trace. -/
inductive EngineCall where
  | read (uio : uio_t) (flags : Int) (cr : Nat)
  | write (uio : uio_t) (flags : Int) (cr : Nat)
  | readdir (pos : Int) (cr : Nat)

/-- The inode's engine state together with the ghost trace of engine calls. -/
structure World (σ : Type) where
  ip : σ
  trace : List EngineCall

/-- The `struct file` fields used here: the position `f_pos`, a `loff_t`,
and the open flags `f_flags`, an `unsigned int`. -/
structure file where
  f_pos : Int
  f_flags : Nat

/-- The `znode_t` fields used here: the mapped flag and its mutex. -/
structure znode_t where
  z_is_mapped : Nat
  z_lock : Bool

/-- The `struct page`: its offset in the file (`page_offset`), the page
frame memory (what `kmap` returns), and the lock, error and up-to-date
flags. -/
structure page where
  offset : Int
  mem : Buf
  locked : Bool
  error : Bool
  uptodate : Bool

/-! ## Kernel helpers -/

/-- The macros `ASSERT` and `ASSERT3S`: in a debug build a failed assertion
panics (`none`); otherwise the macro expands to nothing. -/
def ASSERT (K : Kernel) (c : Bool) : Option Unit :=
  if K.debug && !c then none else some ()

/-- Modelled from the spec: `len = min(page_size, file_size - page_offset)`.
The macro `MIN` is declared outside this file; it is the usual
`((a) < (b) ? (a) : (b))`, here at an `unsigned long` first operand and a
`loff_t` second operand, so C compares both as unsigned 64-bit values. -/
def MIN (a : Nat) (b : Int) : Nat :=
  if a < to_size_t b then a else to_size_t b

/-- The call `memset(pb + start, c, n)` on the memory behind `pb`. -/
def memset (pb : Buf) (start : Nat) (c : Nat) (n : Nat) : Buf :=
  fun i => if start ≤ i ∧ i < start + n then c else pb i

/-- The page flag test `PageLocked`. -/
def PageLocked (pp : page) : Bool := pp.locked

/-- The byte offset of the page in its file, a `loff_t`. -/
def page_offset (pp : page) : Int := pp.offset

/-- Sets the page's error flag. -/
def SetPageError (pp : page) : page := { pp with error := true }

/-- Clears the page's error flag. -/
def ClearPageError (pp : page) : page := { pp with error := false }

/-- Marks the page up to date (valid). -/
def SetPageUptodate (pp : page) : page := { pp with uptodate := true }

/-- Marks the page not up to date. -/
def ClearPageUptodate (pp : page) : page := { pp with uptodate := false }

/-- Releases the page lock. -/
def unlock_page (pp : page) : page := { pp with locked := false }

/-- Takes the znode's `z_lock`. -/
def mutex_enter (zp : znode_t) : znode_t := { zp with z_lock := true }

/-- Releases the znode's `z_lock`. -/
def mutex_exit (zp : znode_t) : znode_t := { zp with z_lock := false }

/-! ## The functions of `zpl_file.c` -/

/-- The single-segment descriptor `zpl_read_common` and `zpl_write_common`
build: `iov` over `buf` with `iov_len = len`, `uio_resid = len`,
`uio_iovcnt = 1`, `uio_loffset = pos`, `uio_limit = MAXOFFSET_T`,
`uio_segflg = segment`. -/
def uio_init (K : Kernel) (buf : Buf) (len : Nat) (pos : Int) (segment : uio_seg_t) : uio_t :=
  { uio_iov := { iov_base := buf, iov_len := len }
    uio_resid := to_ssize_t len
    uio_iovcnt := 1
    uio_loffset := pos
    uio_limit := K.MAXOFFSET_T
    uio_segflg := segment }

/-- The function `zpl_readdir` (lines 32-46): negates the status of
`zfs_readdir`, asserts `error <= 0`, and returns the status with the file at
the position the engine left. -/
def zpl_readdir {σ : Type} (K : Kernel) (E : Engine σ) (w : World σ) (filp : file) :
    Option (Int × file × World σ) :=
  let cr := K.cred
  -- error = -zfs_readdir(dentry->d_inode, dirent, filldir, &filp->f_pos, cr);
  let r := E.zfs_readdir w.ip filp.f_pos cr
  let w1 : World σ := { ip := r.2.2, trace := w.trace ++ [EngineCall.readdir filp.f_pos cr] }
  let error := to_int (-r.1)
  -- ASSERT3S(error, <=, 0); return (error);
  (ASSERT K (decide (error ≤ 0))).bind fun _ =>
  some (error, { filp with f_pos := r.2.1 }, w1)

/-- The function `zpl_read_common` (lines 62-85): returns the `ssize_t`
result, the buffer memory and the world after the call. -/
def zpl_read_common {σ : Type} (K : Kernel) (E : Engine σ) (w : World σ) (buf : Buf) (len : Nat)
    (pos : Int) (segment : uio_seg_t) (flags : Int) (cr : Nat) : Int × Buf × World σ :=
  let uio := uio_init K buf len pos segment
  -- error = -zfs_read(ip, &uio, flags, cr);
  let r := E.zfs_read w.ip uio flags cr
  let w1 : World σ := { ip := r.2.2.2, trace := w.trace ++ [EngineCall.read uio flags cr] }
  let error := to_int (-r.1)
  -- if (error < 0) return (error); return (len - uio.uio_resid);
  if error < 0 then (error, r.2.2.1, w1)
  else (to_ssize_t ((len : Int) - r.2.1.uio_resid), r.2.2.1, w1)

/-- The function `zpl_write_common` (lines 105-128): returns the `ssize_t`
result and the world after the call. -/
def zpl_write_common {σ : Type} (K : Kernel) (E : Engine σ) (w : World σ) (buf : Buf) (len : Nat)
    (pos : Int) (segment : uio_seg_t) (flags : Int) (cr : Nat) : Int × World σ :=
  let uio := uio_init K buf len pos segment
  -- error = -zfs_write(ip, &uio, flags, cr);
  let r := E.zfs_write w.ip uio flags cr
  let w1 : World σ := { ip := r.2.2, trace := w.trace ++ [EngineCall.write uio flags cr] }
  let error := to_int (-r.1)
  -- if (error < 0) return (error); return (len - uio.uio_resid);
  if error < 0 then (error, w1)
  else (to_ssize_t ((len : Int) - r.2.1.uio_resid), w1)

/-- The function `zpl_mmap` (lines 191-206), given the result of
`generic_file_mmap(filp, vma)`: returns its result and the znode
`ITOZ(filp->f_mapping->host)`. -/
def zpl_mmap (generic_file_mmap : Int) (zp : znode_t) : Int × znode_t :=
  let error := generic_file_mmap
  -- if (error) return (error);
  if error ≠ 0 then (error, zp)
  else
    -- mutex_enter(&zp->z_lock); zp->z_is_mapped = 1; mutex_exit(&zp->z_lock);
    let zp := mutex_enter zp
    let zp : znode_t := { zp with z_is_mapped := 1 }
    let zp := mutex_exit zp
    (error, zp)

/-- The function `zpl_readpage` (lines 217-261): returns the status, the
page and the world; `none` is a failed assertion of a debug build.  The
calls `kmap`, `kunmap`, `put_cred` and `flush_dcache_page` change nothing
that is modelled. -/
def zpl_readpage {σ : Type} (K : Kernel) (E : Engine σ) (w : World σ) (pp : page) :
    Option (Int × page × World σ) :=
  -- ASSERT(PageLocked(pp));
  (ASSERT K (PageLocked pp)).bind fun _ =>
  -- off = page_offset(pp); i_size = i_size_read(ip); ASSERT3S(off, <, i_size);
  let off := page_offset pp
  let i_size := E.i_size_read w.ip
  (ASSERT K (decide (off < i_size))).bind fun _ =>
  -- cr = get_current_cred(); len = MIN(PAGE_CACHE_SIZE, i_size - off); pb = kmap(pp);
  let cr := K.cred
  let len := MIN K.PAGE_CACHE_SIZE (to_ssize_t (i_size - off))
  let pb := pp.mem
  -- wrote = zpl_read_common(ip, pb, len, off, UIO_SYSSPACE, O_DIRECT, cr);
  let r := zpl_read_common K E w pb len off uio_seg_t.UIO_SYSSPACE K.O_DIRECT cr
  let wrote := to_size_t r.1
  -- if (wrote != len) error = -EIO;
  let error : Int := if wrote ≠ len then to_int (-K.EIO) else 0
  -- if (!error && (len < PAGE_CACHE_SIZE)) memset(pb + len, 0, PAGE_CACHE_SIZE - len);
  let pb := if error = 0 ∧ len < K.PAGE_CACHE_SIZE
    then memset r.2.1 len 0 (K.PAGE_CACHE_SIZE - len) else r.2.1
  let pp : page := { pp with mem := pb }
  -- if (error) SetPageError, ClearPageUptodate; else ClearPageError, SetPageUptodate
  let pp := if error ≠ 0 then ClearPageUptodate (SetPageError pp)
    else SetPageUptodate (ClearPageError pp)
  -- unlock_page(pp); return (error);
  let pp := unlock_page pp
  some (error, pp, r.2.2)

/-- The function `zpl_writepage` (lines 273-312): returns the status, the
page and the world; `none` is a failed assertion of a debug build. -/
def zpl_writepage {σ : Type} (K : Kernel) (E : Engine σ) (w : World σ) (pp : page) :
    Option (Int × page × World σ) :=
  -- ASSERT(PageLocked(pp));
  (ASSERT K (PageLocked pp)).bind fun _ =>
  -- off = page_offset(pp); i_size = i_size_read(ip);
  let off := page_offset pp
  let i_size := E.i_size_read w.ip
  -- cr = get_current_cred(); len = MIN(PAGE_CACHE_SIZE, i_size - off); pb = kmap(pp);
  let cr := K.cred
  let len := MIN K.PAGE_CACHE_SIZE (to_ssize_t (i_size - off))
  let pb := pp.mem
  -- read = zpl_write_common(ip, pb, len, off, UIO_SYSSPACE, O_DIRECT, cr);
  let r := zpl_write_common K E w pb len off uio_seg_t.UIO_SYSSPACE K.O_DIRECT cr
  let read := to_size_t r.1
  -- if (read != len) error = -EIO;
  let error : Int := if read ≠ len then to_int (-K.EIO) else 0
  -- if (error) SetPageError, ClearPageUptodate; else ClearPageError, SetPageUptodate
  let pp := if error ≠ 0 then ClearPageUptodate (SetPageError pp)
    else SetPageUptodate (ClearPageError pp)
  -- unlock_page(pp); return (error);
  let pp := unlock_page pp
  some (error, pp, r.2)

/-! ## The request of a page handler -/

/-- The length `zpl_readpage` and `zpl_writepage` compute for a page:
`MIN(PAGE_CACHE_SIZE, i_size - off)`. -/
def page_len {σ : Type} (K : Kernel) (E : Engine σ) (w : World σ) (pp : page) : Nat :=
  MIN K.PAGE_CACHE_SIZE (to_ssize_t (E.i_size_read w.ip - page_offset pp))

/-- The transfer `zpl_readpage` makes. -/
def page_read {σ : Type} (K : Kernel) (E : Engine σ) (w : World σ) (pp : page) :
    Int × Buf × World σ :=
  zpl_read_common K E w pp.mem (page_len K E w pp) (page_offset pp) uio_seg_t.UIO_SYSSPACE
    K.O_DIRECT K.cred

/-- The transfer `zpl_writepage` makes. -/
def page_write {σ : Type} (K : Kernel) (E : Engine σ) (w : World σ) (pp : page) :
    Int × World σ :=
  zpl_write_common K E w pp.mem (page_len K E w pp) (page_offset pp) uio_seg_t.UIO_SYSSPACE
    K.O_DIRECT K.cred

/-! ## Concrete kernels and engines -/

/-- The constants of an x86-64 Linux kernel, assertions compiled out. -/
def linux : Kernel :=
  { PAGE_CACHE_SIZE := 4096, EIO := 5, O_DIRECT := 16384, MAXOFFSET_T := 2 ^ 63 - 1,
    debug := false, cred := 0 }

/-- The same kernel as a debug build. -/
def linux_debug : Kernel := { linux with debug := true }

/-- An engine whose state is the inode size alone, and that answers every
request with the status `rc`, and every read or write with the residual
`resid`, touching nothing else. -/
def scripted (rc : Int) (resid : Int) : Engine Int :=
  { i_size_read := fun s => s
    zfs_read := fun s uio _ _ => (rc, { uio with uio_resid := resid }, uio.uio_iov.iov_base, s)
    zfs_write := fun s uio _ _ => (rc, { uio with uio_resid := resid }, s)
    zfs_readdir := fun s pos _ => (rc, pos, s) }

/-- Modelled from the spec: the storage engine as a byte store
(`engine_read`, `engine_write` of the spec; `zfs_read` and `zfs_write` are
outside this file).  A file has a size, a byte at each offset, and a
capacity beyond which nothing can be stored. -/
structure Store where
  size : Nat
  bytes : Nat → Nat
  capacity : Nat

/-- Modelled from the spec: `engine_read`, the missing `zfs_read`, over the
byte store.  It copies the requested bytes that lie below the file size into
the buffer and leaves the count it could not satisfy as the residual. -/
def Store.zfs_read (s : Store) (uio : uio_t) (_flags : Int) (_cr : Nat) :
    Int × uio_t × Buf × Store :=
  if uio.uio_loffset < 0 then (22, uio, uio.uio_iov.iov_base, s)
  else
    let off := uio.uio_loffset.toNat
    let n := min uio.uio_resid.toNat (s.size - off)
    (0, { uio with uio_resid := uio.uio_resid - n, uio_loffset := uio.uio_loffset + n },
      (fun i => if i < n then s.bytes (off + i) else uio.uio_iov.iov_base i), s)

/-- Modelled from the spec: `engine_write`, the missing `zfs_write`, over
the byte store.  It stores the bytes that fit below the capacity, grows the
file to cover them, and leaves the count it could not store as the residual
(a short count when the store is full); a request of which nothing fits
fails with `ENOSPC`, and an empty request changes nothing. -/
def Store.zfs_write (s : Store) (uio : uio_t) (_flags : Int) (_cr : Nat) :
    Int × uio_t × Store :=
  if uio.uio_loffset < 0 then (22, uio, s)
  else
    let off := uio.uio_loffset.toNat
    let n := min uio.uio_resid.toNat (s.capacity - off)
    if n = 0 then ((if 0 < uio.uio_resid then 28 else 0), uio, s)
    else
      (0, { uio with uio_resid := uio.uio_resid - n, uio_loffset := uio.uio_loffset + n },
        { s with
          size := max s.size (off + n)
          bytes := fun j => if off ≤ j ∧ j < off + n then uio.uio_iov.iov_base (j - off)
            else s.bytes j })

/-- Modelled from the spec: the byte store as the storage engine. -/
def storeEngine : Engine Store :=
  { i_size_read := fun s => (s.size : Int)
    zfs_read := Store.zfs_read
    zfs_write := Store.zfs_write
    zfs_readdir := fun s pos _ => (0, pos, s) }

/-! ## Concrete inputs -/

/-- A world over the scripted engine: a file of 10 bytes and an empty
trace. -/
def w0 : World Int := { ip := 10, trace := [] }

/-- A buffer of zero bytes. -/
def buf0 : Buf := fun _ => 0

/-- A file at position 0, opened with flags 2 (`O_RDWR`). -/
def filp0 : file := { f_pos := 0, f_flags := 2 }

/-- Whether the znode's mapped flag is set. -/
def z_mapped (zp : znode_t) : Bool := decide (zp.z_is_mapped ≠ 0)

/-- A znode that is not mapped. -/
def zp0 : znode_t := { z_is_mapped := 0, z_lock := false }

/-- A byte store holding a file of the 10 bytes 1, 2, ..., 10. -/
def store10 : Store :=
  { size := 10, bytes := fun j => if j < 10 then j + 1 else 0, capacity := 1048576 }

/-- A world over the byte store `store10`, with an empty trace. -/
def ws10 : World Store := { ip := store10, trace := [] }

/-- The locked page at offset 0, not yet read in: its frame holds stale
bytes (170 everywhere). -/
def page0 : page :=
  { offset := 0, mem := fun _ => 170, locked := true, error := false, uptodate := false }

/-- The locked, up-to-date page at offset 0 to write back: byte `i` of its
frame is `i % 7 + 20`. -/
def page0_dirty : page :=
  { offset := 0, mem := fun i => i % 7 + 20, locked := true, error := false, uptodate := true }

/-- The locked, up-to-date page at offset 4096 to write back: byte `i` of its
frame is `i % 7 + 20`. -/
def page1_dirty : page :=
  { offset := 4096, mem := fun i => i % 7 + 20, locked := true, error := false,
    uptodate := true }

/-! # Theorems -/

/-! ## Arithmetic of the conversions -/

theorem to_int_neg_errno (e : Int) (h0 : 0 ≤ e) (h1 : e < 2 ^ 31) : to_int (-e) = -e := by
  unfold to_int
  omega

theorem to_ssize_t_of_range (x : Int) (h0 : -(2 ^ 63) ≤ x) (h1 : x < 2 ^ 63) :
    to_ssize_t x = x := by
  unfold to_ssize_t
  omega

theorem to_ssize_t_range (x : Int) : -(2 ^ 63) ≤ to_ssize_t x ∧ to_ssize_t x < 2 ^ 63 := by
  unfold to_ssize_t
  omega

theorem to_int_range (x : Int) : -(2 ^ 31) ≤ to_int x ∧ to_int x < 2 ^ 31 := by
  unfold to_int
  omega

/-! ## The byte-range transfer: `zpl_read_common`, `zpl_write_common` -/

/-- The world `zpl_read_common` leaves: the engine's state, and the trace
with the one read request appended. -/
theorem zpl_read_common_world {σ : Type} (K : Kernel) (E : Engine σ) (w : World σ) (buf : Buf)
    (len : Nat) (pos : Int) (seg : uio_seg_t) (flags : Int) (cr : Nat) :
    (zpl_read_common K E w buf len pos seg flags cr).2.2 =
      { ip := (E.zfs_read w.ip (uio_init K buf len pos seg) flags cr).2.2.2
        trace := w.trace ++ [EngineCall.read (uio_init K buf len pos seg) flags cr] } := by
  unfold zpl_read_common
  dsimp only
  split <;> rfl

/-- The buffer `zpl_read_common` leaves is the one the engine left. -/
theorem zpl_read_common_buf {σ : Type} (K : Kernel) (E : Engine σ) (w : World σ) (buf : Buf)
    (len : Nat) (pos : Int) (seg : uio_seg_t) (flags : Int) (cr : Nat) :
    (zpl_read_common K E w buf len pos seg flags cr).2.1 =
      (E.zfs_read w.ip (uio_init K buf len pos seg) flags cr).2.2.1 := by
  unfold zpl_read_common
  dsimp only
  split <;> rfl

/-- The world `zpl_write_common` leaves: the engine's state, and the trace
with the one write request appended. -/
theorem zpl_write_common_world {σ : Type} (K : Kernel) (E : Engine σ) (w : World σ) (buf : Buf)
    (len : Nat) (pos : Int) (seg : uio_seg_t) (flags : Int) (cr : Nat) :
    (zpl_write_common K E w buf len pos seg flags cr).2 =
      { ip := (E.zfs_write w.ip (uio_init K buf len pos seg) flags cr).2.2
        trace := w.trace ++ [EngineCall.write (uio_init K buf len pos seg) flags cr] } := by
  unfold zpl_write_common
  dsimp only
  split <;> rfl

/-- The result of `zpl_read_common` is a signed 64-bit value. -/
theorem zpl_read_common_range {σ : Type} (K : Kernel) (E : Engine σ) (w : World σ) (buf : Buf)
    (len : Nat) (pos : Int) (seg : uio_seg_t) (flags : Int) (cr : Nat) :
    -(2 ^ 63) ≤ (zpl_read_common K E w buf len pos seg flags cr).1 ∧
      (zpl_read_common K E w buf len pos seg flags cr).1 < 2 ^ 63 := by
  unfold zpl_read_common
  dsimp only
  split
  · have := to_int_range (-(E.zfs_read w.ip (uio_init K buf len pos seg) flags cr).1)
    dsimp only
    omega
  · exact to_ssize_t_range _

/-- The result of `zpl_write_common` is a signed 64-bit value. -/
theorem zpl_write_common_range {σ : Type} (K : Kernel) (E : Engine σ) (w : World σ) (buf : Buf)
    (len : Nat) (pos : Int) (seg : uio_seg_t) (flags : Int) (cr : Nat) :
    -(2 ^ 63) ≤ (zpl_write_common K E w buf len pos seg flags cr).1 ∧
      (zpl_write_common K E w buf len pos seg flags cr).1 < 2 ^ 63 := by
  unfold zpl_write_common
  dsimp only
  split
  · have := to_int_range (-(E.zfs_write w.ip (uio_init K buf len pos seg) flags cr).1)
    dsimp only
    omega
  · exact to_ssize_t_range _

/-- When the engine reports no error, `zpl_read_common` returns
`len - uio_resid` as an `ssize_t`. -/
theorem zpl_read_common_ok {σ : Type} (K : Kernel) (E : Engine σ) (w : World σ) (buf : Buf)
    (len : Nat) (pos : Int) (seg : uio_seg_t) (flags : Int) (cr : Nat)
    (h : (E.zfs_read w.ip (uio_init K buf len pos seg) flags cr).1 = 0) :
    (zpl_read_common K E w buf len pos seg flags cr).1 =
      to_ssize_t ((len : Int) -
        (E.zfs_read w.ip (uio_init K buf len pos seg) flags cr).2.1.uio_resid) := by
  unfold zpl_read_common
  dsimp only
  rw [h]
  have h0 : ¬ to_int (-0) < 0 := by unfold to_int; omega
  rw [if_neg h0]

/-- When the engine reports a positive errno, `zpl_read_common` returns its
negation. -/
theorem zpl_read_common_err {σ : Type} (K : Kernel) (E : Engine σ) (w : World σ) (buf : Buf)
    (len : Nat) (pos : Int) (seg : uio_seg_t) (flags : Int) (cr : Nat)
    (h0 : 0 < (E.zfs_read w.ip (uio_init K buf len pos seg) flags cr).1)
    (h1 : (E.zfs_read w.ip (uio_init K buf len pos seg) flags cr).1 < 2 ^ 31) :
    (zpl_read_common K E w buf len pos seg flags cr).1 =
      -(E.zfs_read w.ip (uio_init K buf len pos seg) flags cr).1 := by
  unfold zpl_read_common
  dsimp only
  rw [to_int_neg_errno _ (le_of_lt h0) h1]
  have hneg : -(E.zfs_read w.ip (uio_init K buf len pos seg) flags cr).1 < 0 := by omega
  rw [if_pos hneg]

/-- When the engine reports no error, `zpl_write_common` returns
`len - uio_resid` as an `ssize_t`. -/
theorem zpl_write_common_ok {σ : Type} (K : Kernel) (E : Engine σ) (w : World σ) (buf : Buf)
    (len : Nat) (pos : Int) (seg : uio_seg_t) (flags : Int) (cr : Nat)
    (h : (E.zfs_write w.ip (uio_init K buf len pos seg) flags cr).1 = 0) :
    (zpl_write_common K E w buf len pos seg flags cr).1 =
      to_ssize_t ((len : Int) -
        (E.zfs_write w.ip (uio_init K buf len pos seg) flags cr).2.1.uio_resid) := by
  unfold zpl_write_common
  dsimp only
  rw [h]
  have h0 : ¬ to_int (-0) < 0 := by unfold to_int; omega
  rw [if_neg h0]

/-- When the engine reports a positive errno, `zpl_write_common` returns its
negation. -/
theorem zpl_write_common_err {σ : Type} (K : Kernel) (E : Engine σ) (w : World σ) (buf : Buf)
    (len : Nat) (pos : Int) (seg : uio_seg_t) (flags : Int) (cr : Nat)
    (h0 : 0 < (E.zfs_write w.ip (uio_init K buf len pos seg) flags cr).1)
    (h1 : (E.zfs_write w.ip (uio_init K buf len pos seg) flags cr).1 < 2 ^ 31) :
    (zpl_write_common K E w buf len pos seg flags cr).1 =
      -(E.zfs_write w.ip (uio_init K buf len pos seg) flags cr).1 := by
  unfold zpl_write_common
  dsimp only
  rw [to_int_neg_errno _ (le_of_lt h0) h1]
  have hneg : -(E.zfs_write w.ip (uio_init K buf len pos seg) flags cr).1 < 0 := by omega
  rw [if_pos hneg]

/-! ## The page handlers: `zpl_readpage`, `zpl_writepage` -/

/-- The macro `MIN` never exceeds its first operand. -/
theorem MIN_le (a : Nat) (b : Int) : MIN a b ≤ a := by
  unfold MIN
  split <;> omega

/-- At a non-negative `loff_t` difference `MIN` is the minimum. -/
theorem MIN_of_nonneg (a : Nat) (d : Int) (h0 : 0 ≤ d) (h1 : d < 2 ^ 63) :
    MIN a (to_ssize_t d) = min a d.toNat := by
  unfold MIN to_size_t
  rw [to_ssize_t_of_range d (by omega) h1]
  split <;> omega

/-- At a negative `loff_t` difference the unsigned comparison of `MIN`
selects the first operand. -/
theorem MIN_of_neg (a : Nat) (d : Int) (ha : a < 2 ^ 63) (h0 : d < 0) (h1 : -(2 ^ 63) ≤ d) :
    MIN a (to_ssize_t d) = a := by
  unfold MIN to_size_t
  rw [to_ssize_t_of_range d h1 (by omega)]
  split <;> omega

/-- A signed 64-bit value equals a length below 2^63 as a `size_t` exactly
when it equals it as an integer. -/
theorem to_size_t_eq_iff (r : Int) (len : Nat) (hr0 : -(2 ^ 63) ≤ r) (hr1 : r < 2 ^ 63)
    (hlen : len < 2 ^ 63) : to_size_t r = len ↔ r = len := by
  unfold to_size_t
  omega

/-- What `zpl_readpage` returns once its assertions pass: the status is
`-EIO` exactly when the transfer's result differs from `len` as a `size_t`,
the page memory is the buffer the engine left with the tail zeroed on
success, the flags follow the status, the page is unlocked and the world is
the one the transfer left. -/
theorem zpl_readpage_run {σ : Type} (K : Kernel) (E : Engine σ) (w : World σ) (pp : page)
    (hpre : K.debug = true → pp.locked = true ∧ page_offset pp < E.i_size_read w.ip) :
    ∃ r, zpl_readpage K E w pp = some r ∧
      r.1 = (if to_size_t (page_read K E w pp).1 ≠ page_len K E w pp
        then to_int (-K.EIO) else 0) ∧
      r.2.1.mem = (if r.1 = 0 ∧ page_len K E w pp < K.PAGE_CACHE_SIZE
        then memset (page_read K E w pp).2.1 (page_len K E w pp) 0
          (K.PAGE_CACHE_SIZE - page_len K E w pp)
        else (page_read K E w pp).2.1) ∧
      r.2.1.error = decide (r.1 ≠ 0) ∧
      r.2.1.uptodate = decide (r.1 = 0) ∧
      r.2.1.locked = false ∧
      r.2.1.offset = pp.offset ∧
      r.2.2 = (page_read K E w pp).2.2 := by
  have h1 : ASSERT K (PageLocked pp) = some () := by
    unfold ASSERT PageLocked
    cases hd : K.debug
    · simp
    · simp [(hpre hd).1]
  have h2 : ASSERT K (decide (page_offset pp < E.i_size_read w.ip)) = some () := by
    unfold ASSERT
    cases hd : K.debug
    · simp
    · simp [(hpre hd).2]
  unfold zpl_readpage
  rw [h1, Option.some_bind]
  dsimp only
  rw [h2, Option.some_bind]
  refine ⟨_, rfl, ?_⟩
  by_cases hw : to_size_t (page_read K E w pp).1 = page_len K E w pp
  · unfold page_read page_len at hw
    unfold page_read page_len
    simp only [hw, ne_eq, not_true_eq_false, if_false, true_and, unlock_page, SetPageUptodate,
      ClearPageError, decide_True, decide_False, and_self]
  · unfold page_read page_len at hw
    unfold page_read page_len
    simp only [hw, ne_eq, not_false_eq_true, if_true, unlock_page, SetPageError,
      ClearPageUptodate]
    by_cases he : to_int (-K.EIO) = 0 <;>
      simp [he, SetPageUptodate, ClearPageError]

/-- What `zpl_writepage` returns once its assertion passes: the status is
`-EIO` exactly when the transfer's result differs from `len` as a `size_t`,
the page memory is untouched, the flags follow the status, the page is
unlocked and the world is the one the transfer left. -/
theorem zpl_writepage_run {σ : Type} (K : Kernel) (E : Engine σ) (w : World σ) (pp : page)
    (hpre : K.debug = true → pp.locked = true) :
    ∃ r, zpl_writepage K E w pp = some r ∧
      r.1 = (if to_size_t (page_write K E w pp).1 ≠ page_len K E w pp
        then to_int (-K.EIO) else 0) ∧
      r.2.1.mem = pp.mem ∧
      r.2.1.error = decide (r.1 ≠ 0) ∧
      r.2.1.uptodate = decide (r.1 = 0) ∧
      r.2.1.locked = false ∧
      r.2.1.offset = pp.offset ∧
      r.2.2 = (page_write K E w pp).2 := by
  have h1 : ASSERT K (PageLocked pp) = some () := by
    unfold ASSERT PageLocked
    cases hd : K.debug
    · simp
    · simp [hpre hd]
  unfold zpl_writepage
  rw [h1, Option.some_bind]
  refine ⟨_, rfl, ?_⟩
  by_cases hw : to_size_t (page_write K E w pp).1 = page_len K E w pp
  · unfold page_write page_len at hw
    unfold page_write page_len
    simp only [hw, ne_eq, not_true_eq_false, if_false, true_and, unlock_page, SetPageUptodate,
      ClearPageError, decide_True, decide_False, and_self]
  · unfold page_write page_len at hw
    unfold page_write page_len
    simp only [hw, ne_eq, not_false_eq_true, if_true, unlock_page, SetPageError,
      ClearPageUptodate]
    by_cases he : to_int (-K.EIO) = 0 <;>
      simp [he, SetPageUptodate, ClearPageError]

/-- The page length is below 2^63 in a well-formed kernel. -/
theorem page_len_lt {σ : Type} (K : Kernel) (hK : K.wf) (E : Engine σ) (w : World σ) (pp : page) :
    page_len K E w pp < 2 ^ 63 := by
  have h := MIN_le K.PAGE_CACHE_SIZE (to_ssize_t (E.i_size_read w.ip - page_offset pp))
  have h2 := hK.2.1
  unfold page_len
  omega

/-- In a well-formed kernel `-EIO` is a non-zero `int`. -/
theorem neg_EIO (K : Kernel) (hK : K.wf) : to_int (-K.EIO) = -K.EIO ∧ -K.EIO ≠ 0 := by
  obtain ⟨_, _, h3, h4⟩ := hK
  refine ⟨to_int_neg_errno _ (le_of_lt h3) h4, ?_⟩
  omega

/-- The comparison `wrote != len` of `zpl_readpage` holds exactly when the
transfer's result is not `len`. -/
theorem page_read_ne_iff {σ : Type} (K : Kernel) (hK : K.wf) (E : Engine σ) (w : World σ)
    (pp : page) :
    to_size_t (page_read K E w pp).1 = page_len K E w pp ↔
      (page_read K E w pp).1 = page_len K E w pp := by
  have hr := zpl_read_common_range K E w pp.mem (page_len K E w pp) (page_offset pp)
    uio_seg_t.UIO_SYSSPACE K.O_DIRECT K.cred
  exact to_size_t_eq_iff _ _ hr.1 hr.2 (page_len_lt K hK E w pp)

/-- The comparison `read != len` of `zpl_writepage` holds exactly when the
transfer's result is not `len`. -/
theorem page_write_ne_iff {σ : Type} (K : Kernel) (hK : K.wf) (E : Engine σ) (w : World σ)
    (pp : page) :
    to_size_t (page_write K E w pp).1 = page_len K E w pp ↔
      (page_write K E w pp).1 = page_len K E w pp := by
  have hr := zpl_write_common_range K E w pp.mem (page_len K E w pp) (page_offset pp)
    uio_seg_t.UIO_SYSSPACE K.O_DIRECT K.cred
  exact to_size_t_eq_iff _ _ hr.1 hr.2 (page_len_lt K hK E w pp)

/-- The Linux constants are well formed. -/
theorem linux_wf : linux.wf := by
  unfold Kernel.wf linux
  decide

/-- The debug build's constants are well formed. -/
theorem linux_debug_wf : linux_debug.wf := by
  unfold Kernel.wf linux_debug linux
  decide

/-! ## The transfer result -/

/-- C5 (amended): for `zpl_read_common` and `zpl_write_common` at every
length below 2^63 and every engine outcome: when the engine reports no error
(status 0) and a residual `r` with `0 ≤ r ≤ len`, the result is exactly
`len - r`, between 0 and `len`; when the engine reports an error code `e`
(a positive errno, `0 < e < 2^31`), the result is `-e`, negative, whatever
the residual is. -/
theorem zpl_common_result {σ : Type} (K : Kernel) (E : Engine σ) (w : World σ) (buf : Buf)
    (len : Nat) (pos : Int) (seg : uio_seg_t) (flags : Int) (cr : Nat) (hlen : len < 2 ^ 63)
    (rrc rres wrc wres : Int)
    (hrrc : (E.zfs_read w.ip (uio_init K buf len pos seg) flags cr).1 = rrc)
    (hrres : (E.zfs_read w.ip (uio_init K buf len pos seg) flags cr).2.1.uio_resid = rres)
    (hwrc : (E.zfs_write w.ip (uio_init K buf len pos seg) flags cr).1 = wrc)
    (hwres : (E.zfs_write w.ip (uio_init K buf len pos seg) flags cr).2.1.uio_resid = wres) :
    (rrc = 0 → 0 ≤ rres → rres ≤ len →
      (zpl_read_common K E w buf len pos seg flags cr).1 = len - rres ∧
      0 ≤ (zpl_read_common K E w buf len pos seg flags cr).1 ∧
      (zpl_read_common K E w buf len pos seg flags cr).1 ≤ len) ∧
    (0 < rrc → rrc < 2 ^ 31 →
      (zpl_read_common K E w buf len pos seg flags cr).1 = -rrc ∧
      (zpl_read_common K E w buf len pos seg flags cr).1 < 0) ∧
    (wrc = 0 → 0 ≤ wres → wres ≤ len →
      (zpl_write_common K E w buf len pos seg flags cr).1 = len - wres ∧
      0 ≤ (zpl_write_common K E w buf len pos seg flags cr).1 ∧
      (zpl_write_common K E w buf len pos seg flags cr).1 ≤ len) ∧
    (0 < wrc → wrc < 2 ^ 31 →
      (zpl_write_common K E w buf len pos seg flags cr).1 = -wrc ∧
      (zpl_write_common K E w buf len pos seg flags cr).1 < 0) := by
  refine ⟨?_, ?_, ?_, ?_⟩
  · intro h0 h1 h2
    rw [zpl_read_common_ok K E w buf len pos seg flags cr (hrrc.trans h0), hrres,
      to_ssize_t_of_range _ (by omega) (by omega)]
    omega
  · intro h0 h1
    rw [zpl_read_common_err K E w buf len pos seg flags cr (by omega) (by omega), hrrc]
    omega
  · intro h0 h1 h2
    rw [zpl_write_common_ok K E w buf len pos seg flags cr (hwrc.trans h0), hwres,
      to_ssize_t_of_range _ (by omega) (by omega)]
    omega
  · intro h0 h1
    rw [zpl_write_common_err K E w buf len pos seg flags cr (by omega) (by omega), hwrc]
    omega

/-- C5, at a request of 10 bytes: an engine that reports no error and the
residual 3 gives the result 7 for the read and for the write, and an engine
that reports the errno 5 gives -5, with the same residual. -/
theorem zpl_common_result_witness :
    ((10 : Nat) < 2 ^ 63 ∧ (0 : Int) ≤ 3 ∧ (3 : Int) ≤ (10 : Nat) ∧ (0 : Int) < 5 ∧
      (5 : Int) < 2 ^ 31) ∧
    (zpl_read_common linux (scripted 0 3) w0 buf0 10 0 uio_seg_t.UIO_USERSPACE 2 0).1
      = (10 : Nat) - 3 ∧
    (zpl_write_common linux (scripted 0 3) w0 buf0 10 0 uio_seg_t.UIO_USERSPACE 2 0).1
      = (10 : Nat) - 3 ∧
    (zpl_read_common linux (scripted 5 3) w0 buf0 10 0 uio_seg_t.UIO_USERSPACE 2 0).1 = -5 ∧
    (zpl_write_common linux (scripted 5 3) w0 buf0 10 0 uio_seg_t.UIO_USERSPACE 2 0).1 = -5 :=
  ⟨by decide,
    ((zpl_common_result linux (scripted 0 3) w0 buf0 10 0 uio_seg_t.UIO_USERSPACE 2 0
      (by decide) 0 3 0 3 rfl rfl rfl rfl).1 rfl (by decide) (by decide)).1,
    ((zpl_common_result linux (scripted 0 3) w0 buf0 10 0 uio_seg_t.UIO_USERSPACE 2 0
      (by decide) 0 3 0 3 rfl rfl rfl rfl).2.2.1 rfl (by decide) (by decide)).1,
    ((zpl_common_result linux (scripted 5 3) w0 buf0 10 0 uio_seg_t.UIO_USERSPACE 2 0
      (by decide) 5 3 5 3 rfl rfl rfl rfl).2.1 (by decide) (by decide)).1,
    ((zpl_common_result linux (scripted 5 3) w0 buf0 10 0 uio_seg_t.UIO_USERSPACE 2 0
      (by decide) 5 3 5 3 rfl rfl rfl rfl).2.2.2 (by decide) (by decide)).1⟩

/-- C5 as stated fails at the length 2^63: the engine reports no error and
the residual 0, which is at most the length, and `zpl_read_common` and
`zpl_write_common` return -2^63, which is neither `len - 0` nor between 0
and `len`.  It also fails for an engine that reports the code -5: the result
is then the byte count 10. -/
theorem zpl_common_result_counterexample :
    (((scripted 0 0).zfs_read w0.ip (uio_init linux buf0 (2 ^ 63) 0 uio_seg_t.UIO_USERSPACE) 2 0).1 = 0 ∧
      ((scripted 0 0).zfs_read w0.ip (uio_init linux buf0 (2 ^ 63) 0 uio_seg_t.UIO_USERSPACE) 2
        0).2.1.uio_resid = 0 ∧
      (zpl_read_common linux (scripted 0 0) w0 buf0 (2 ^ 63) 0 uio_seg_t.UIO_USERSPACE 2 0).1
        = -(2 ^ 63) ∧
      (zpl_write_common linux (scripted 0 0) w0 buf0 (2 ^ 63) 0 uio_seg_t.UIO_USERSPACE 2 0).1
        = -(2 ^ 63) ∧
      (zpl_read_common linux (scripted 0 0) w0 buf0 (2 ^ 63) 0 uio_seg_t.UIO_USERSPACE 2 0).1
        ≠ ((2 ^ 63 : Nat) : Int) - 0) ∧
    (((scripted (-5) 0).zfs_read w0.ip (uio_init linux buf0 10 0 uio_seg_t.UIO_USERSPACE) 2 0).1
        = -5 ∧
      (zpl_read_common linux (scripted (-5) 0) w0 buf0 10 0 uio_seg_t.UIO_USERSPACE 2 0).1 = 10 ∧
      (zpl_write_common linux (scripted (-5) 0) w0 buf0 10 0 uio_seg_t.UIO_USERSPACE 2 0).1
        = 10) := by
  decide

/-! ## The directory adapter -/

/-- C10 (amended): for every status `s` of the engine's directory iterator
that is zero or a positive errno (`0 ≤ s < 2^31`), `zpl_readdir` returns
`-s`, which is zero or negative, so its assertion `error <= 0` holds in a
debug build as well; the status is negated, not clamped. -/
theorem zpl_readdir_status {σ : Type} (K : Kernel) (E : Engine σ) (w : World σ) (filp : file)
    (h0 : 0 ≤ (E.zfs_readdir w.ip filp.f_pos K.cred).1)
    (h1 : (E.zfs_readdir w.ip filp.f_pos K.cred).1 < 2 ^ 31) :
    ∃ r, zpl_readdir K E w filp = some r ∧
      r.1 = -(E.zfs_readdir w.ip filp.f_pos K.cred).1 ∧ r.1 ≤ 0 := by
  have hn := to_int_neg_errno _ h0 h1
  have ha : ASSERT K (decide (to_int (-(E.zfs_readdir w.ip filp.f_pos K.cred).1) ≤ 0))
      = some () := by
    unfold ASSERT
    rw [hn]
    have : decide (-(E.zfs_readdir w.ip filp.f_pos K.cred).1 ≤ 0) = true := by
      rw [decide_eq_true_eq]
      omega
    rw [this]
    simp
  unfold zpl_readdir
  dsimp only
  rw [ha, Option.some_bind]
  refine ⟨_, rfl, hn, ?_⟩
  dsimp only
  omega

/-- C10, at an engine whose directory iterator returns the errno 5, in a
debug build: `zpl_readdir` returns -5. -/
theorem zpl_readdir_status_witness :
    ((0 : Int) ≤ ((scripted 5 0).zfs_readdir w0.ip filp0.f_pos linux_debug.cred).1 ∧
      ((scripted 5 0).zfs_readdir w0.ip filp0.f_pos linux_debug.cred).1 < 2 ^ 31) ∧
    ∃ r, zpl_readdir linux_debug (scripted 5 0) w0 filp0 = some r ∧
      r.1 = -((scripted 5 0).zfs_readdir w0.ip filp0.f_pos linux_debug.cred).1 ∧ r.1 ≤ 0 :=
  ⟨by decide, zpl_readdir_status linux_debug (scripted 5 0) w0 filp0 (by decide) (by decide)⟩

/-- C10 as stated fails for the engine status -1: `zpl_readdir` returns the
positive status 1 when assertions are compiled out, and its assertion
`error <= 0` fails (a panic) in a debug build. -/
theorem zpl_readdir_status_counterexample :
    (zpl_readdir linux (scripted (-1) 0) w0 filp0).map (fun r => r.1) = some 1 ∧
    ¬ ((1 : Int) ≤ 0) ∧
    (zpl_readdir linux_debug (scripted (-1) 0) w0 filp0).isNone = true := by
  decide

/-! ## The mapped flag -/

/-- C8: `zpl_mmap` returns the result of the host's generic mapping setup
unchanged, and the mapped flag afterwards is (flag before or setup
succeeded): a failed setup leaves the znode as it was, a successful one sets
the flag, a set flag stays set, and after a successful establishment any
further one leaves the znode as it is; two establishments with the same
result leave what one leaves. -/
theorem zpl_mmap_flag (r : Int) (zp : znode_t) :
    (zpl_mmap r zp).1 = r ∧
    z_mapped (zpl_mmap r zp).2 = (z_mapped zp || decide (r = 0)) ∧
    (r ≠ 0 → (zpl_mmap r zp).2 = zp) ∧
    (r = 0 → z_mapped (zpl_mmap r zp).2 = true) ∧
    (z_mapped zp = true → z_mapped (zpl_mmap r zp).2 = true) ∧
    (∀ r2 : Int, r = 0 → (zpl_mmap r2 (zpl_mmap r zp).2).2 = (zpl_mmap r zp).2) ∧
    (zpl_mmap r (zpl_mmap r zp).2).2 = (zpl_mmap r zp).2 := by
  by_cases hr : r = 0
  · subst hr
    refine ⟨rfl, ?_, ?_, ?_, ?_, ?_, rfl⟩
    · simp [zpl_mmap, z_mapped, mutex_enter, mutex_exit]
    · intro h
      exact absurd rfl h
    · intro _
      rfl
    · intro _
      rfl
    · intro r2 _
      by_cases h2 : r2 = 0
      · subst h2
        rfl
      · simp [zpl_mmap, h2]
  · refine ⟨?_, ?_, ?_, ?_, ?_, ?_, ?_⟩
    · simp [zpl_mmap, hr]
    · simp [zpl_mmap, hr]
    · intro _
      simp [zpl_mmap, hr]
    · intro h
      exact absurd h hr
    · intro h
      simpa [zpl_mmap, hr] using h
    · intro r2 h
      exact absurd h hr
    · simp [zpl_mmap, hr]

/-- C8, at an unmapped znode: a setup that succeeds (0) sets the flag and a
second establishment changes nothing; a setup that fails with -12 leaves the
znode as it was. -/
theorem zpl_mmap_flag_witness :
    ((0 : Int) = 0 ∧ (-12 : Int) ≠ 0) ∧
    z_mapped (zpl_mmap 0 zp0).2 = true ∧
    (zpl_mmap (-12) (zpl_mmap 0 zp0).2).2 = (zpl_mmap 0 zp0).2 ∧
    (zpl_mmap (-12) zp0).2 = zp0 ∧
    z_mapped (zpl_mmap (-12) (zpl_mmap 0 zp0).2).2 = true :=
  ⟨by decide, (zpl_mmap_flag 0 zp0).2.2.2.1 rfl, (zpl_mmap_flag 0 zp0).2.2.2.2.2.1 (-12) rfl,
    (zpl_mmap_flag (-12) zp0).2.2.1 (by decide),
    (zpl_mmap_flag (-12) (zpl_mmap 0 zp0).2).2.2.2.2.1 ((zpl_mmap_flag 0 zp0).2.2.2.1 rfl)⟩

/-! ## Lock, flags and status of the page handlers -/

/-- C7: for every page that is locked on entry and every engine (so every
outcome of the transfer), `zpl_readpage` and `zpl_writepage` return with the
page unlocked.  `zpl_writepage` always returns; `zpl_readpage` returns
unless a debug build stops at its assertion `off < i_size`, and whenever it
returns the page is unlocked. -/
theorem page_lock_released {σ : Type} (K : Kernel) (E : Engine σ) (w : World σ) (pp : page)
    (hl : pp.locked = true) :
    (∀ r, zpl_readpage K E w pp = some r → r.2.1.locked = false) ∧
    ((K.debug = true → page_offset pp < E.i_size_read w.ip) →
      ∃ r, zpl_readpage K E w pp = some r ∧ r.2.1.locked = false) ∧
    (∃ r, zpl_writepage K E w pp = some r ∧ r.2.1.locked = false) := by
  refine ⟨?_, ?_, ?_⟩
  · intro r hr
    by_cases hpre : K.debug = true → page_offset pp < E.i_size_read w.ip
    · obtain ⟨r2, h2, _, _, _, _, hlk, _⟩ :=
        zpl_readpage_run K E w pp (fun hd => ⟨hl, hpre hd⟩)
      rw [h2] at hr
      cases hr
      exact hlk
    · exfalso
      have hd : K.debug = true := by
        by_contra hd
        exact hpre (fun h => absurd h hd)
      have hlt : ¬ page_offset pp < E.i_size_read w.ip := fun h => hpre (fun _ => h)
      unfold zpl_readpage ASSERT at hr
      simp [hd, hl, PageLocked, hlt] at hr
  · intro hpre
    obtain ⟨r2, h2, _, _, _, _, hlk, _⟩ := zpl_readpage_run K E w pp (fun hd => ⟨hl, hpre hd⟩)
    exact ⟨r2, h2, hlk⟩
  · obtain ⟨r2, h2, _, _, _, _, hlk, _⟩ := zpl_writepage_run K E w pp (fun _ => hl)
    exact ⟨r2, h2, hlk⟩

/-- C7, in a debug build on the locked page at offset 0 of a 10-byte file,
with an engine that fails every transfer with the errno 5: both handlers
return with the page unlocked. -/
theorem page_lock_released_witness :
    (page0.locked = true ∧
      (linux_debug.debug = true → page_offset page0 < (scripted 5 10).i_size_read w0.ip)) ∧
    (∃ r, zpl_readpage linux_debug (scripted 5 10) w0 page0 = some r ∧ r.2.1.locked = false) ∧
    (∃ r, zpl_writepage linux_debug (scripted 5 10) w0 page0 = some r ∧
      r.2.1.locked = false) :=
  ⟨⟨rfl, fun _ => by decide⟩,
    (page_lock_released linux_debug (scripted 5 10) w0 page0 rfl).2.1 (fun _ => by decide),
    (page_lock_released linux_debug (scripted 5 10) w0 page0 rfl).2.2⟩

/-- C4 (amended): once its assertions pass, `zpl_readpage` returns success
(0) if and only if the read `zpl_read_common` returned exactly `len`;
whenever the read returned anything else it returns `-EIO`, sets the page's
error flag and clears its up-to-date flag.  That is so for every engine
error in the engine's convention (a positive errno `0 < e < 2^31`, which the
read returns as `-e` and the handler stores in an unsigned count) and for
every short read (status 0, residual `0 < r ≤ len`).  On success the page is
up to date and every byte from `len` to the end of the page is zero. -/
theorem zpl_readpage_success_iff {σ : Type} (K : Kernel) (hK : K.wf) (E : Engine σ)
    (w : World σ) (pp : page)
    (hpre : K.debug = true → pp.locked = true ∧ page_offset pp < E.i_size_read w.ip) :
    ∃ r, zpl_readpage K E w pp = some r ∧
      (r.1 = 0 ↔ (page_read K E w pp).1 = page_len K E w pp) ∧
      ((page_read K E w pp).1 ≠ page_len K E w pp →
        r.1 = -K.EIO ∧ r.1 ≠ 0 ∧ r.2.1.error = true ∧ r.2.1.uptodate = false) ∧
      (0 < (E.zfs_read w.ip (uio_init K pp.mem (page_len K E w pp) (page_offset pp)
            uio_seg_t.UIO_SYSSPACE) K.O_DIRECT K.cred).1 →
        (E.zfs_read w.ip (uio_init K pp.mem (page_len K E w pp) (page_offset pp)
            uio_seg_t.UIO_SYSSPACE) K.O_DIRECT K.cred).1 < 2 ^ 31 →
        (page_read K E w pp).1 < 0 ∧
        r.1 = -K.EIO ∧ r.1 ≠ 0 ∧ r.2.1.error = true ∧ r.2.1.uptodate = false) ∧
      ((E.zfs_read w.ip (uio_init K pp.mem (page_len K E w pp) (page_offset pp)
            uio_seg_t.UIO_SYSSPACE) K.O_DIRECT K.cred).1 = 0 →
        0 < (E.zfs_read w.ip (uio_init K pp.mem (page_len K E w pp) (page_offset pp)
            uio_seg_t.UIO_SYSSPACE) K.O_DIRECT K.cred).2.1.uio_resid →
        (E.zfs_read w.ip (uio_init K pp.mem (page_len K E w pp) (page_offset pp)
            uio_seg_t.UIO_SYSSPACE) K.O_DIRECT K.cred).2.1.uio_resid ≤ page_len K E w pp →
        (page_read K E w pp).1 < page_len K E w pp ∧
        r.1 = -K.EIO ∧ r.1 ≠ 0 ∧ r.2.1.error = true ∧ r.2.1.uptodate = false) ∧
      (r.1 = 0 → r.2.1.uptodate = true ∧ r.2.1.error = false ∧
        ∀ i, page_len K E w pp ≤ i → i < K.PAGE_CACHE_SIZE → r.2.1.mem i = 0) := by
  obtain ⟨r, hr, hst, hmem, herr, hup, _, _, _⟩ := zpl_readpage_run K E w pp hpre
  have hiff := page_read_ne_iff K hK E w pp
  obtain ⟨he1, he2⟩ := neg_EIO K hK
  have hlen := page_len_lt K hK E w pp
  have hfail : (page_read K E w pp).1 ≠ page_len K E w pp →
      r.1 = -K.EIO ∧ r.1 ≠ 0 ∧ r.2.1.error = true ∧ r.2.1.uptodate = false := by
    intro hne
    have hne2 : to_size_t (page_read K E w pp).1 ≠ page_len K E w pp := fun h => hne (hiff.1 h)
    rw [if_pos hne2, he1] at hst
    have h0 : r.1 ≠ 0 := by rw [hst]; exact he2
    refine ⟨hst, h0, ?_, ?_⟩
    · rw [herr]; exact decide_eq_true h0
    · rw [hup]; exact decide_eq_false h0
  have hzero : r.1 = 0 → (page_read K E w pp).1 = page_len K E w pp := by
    intro h0
    by_contra hne
    exact (hfail hne).2.1 h0
  refine ⟨r, hr, ⟨hzero, ?_⟩, hfail, ?_, ?_, ?_⟩
  · intro heq
    rw [if_neg (not_not.2 (hiff.2 heq))] at hst
    exact hst
  · intro h0 h1
    have hv := zpl_read_common_err K E w pp.mem (page_len K E w pp) (page_offset pp)
      uio_seg_t.UIO_SYSSPACE K.O_DIRECT K.cred h0 h1
    have hneg : (page_read K E w pp).1 < 0 := by
      unfold page_read
      rw [hv]
      omega
    exact ⟨hneg, hfail (by omega)⟩
  · intro h0 h1 h2
    have hv := zpl_read_common_ok K E w pp.mem (page_len K E w pp) (page_offset pp)
      uio_seg_t.UIO_SYSSPACE K.O_DIRECT K.cred h0
    rw [to_ssize_t_of_range _ (by omega) (by omega)] at hv
    have hlt : (page_read K E w pp).1 < page_len K E w pp := by
      unfold page_read
      rw [hv]
      omega
    exact ⟨hlt, hfail (by omega)⟩
  · intro h0
    refine ⟨?_, ?_, ?_⟩
    · rw [hup]; exact decide_eq_true h0
    · rw [herr]; exact decide_eq_false (not_not.2 h0)
    · intro i hi1 hi2
      have hlt : page_len K E w pp < K.PAGE_CACHE_SIZE := by omega
      rw [hmem, if_pos ⟨h0, hlt⟩]
      unfold memset
      rw [if_pos ⟨hi1, by omega⟩]

/-- C4, in a debug build on the locked page at offset 0 of a 10-byte file,
with an engine that reports no error and the residual 3: the read returns 7,
not 10, and `zpl_readpage` returns -5 with the error flag set and the
up-to-date flag cleared. -/
theorem zpl_readpage_success_iff_witness :
    (linux_debug.wf ∧
      (linux_debug.debug = true →
        page0.locked = true ∧ page_offset page0 < (scripted 0 3).i_size_read w0.ip)) ∧
    ∃ r, zpl_readpage linux_debug (scripted 0 3) w0 page0 = some r ∧
      r.1 = -linux_debug.EIO ∧ r.1 ≠ 0 ∧ r.2.1.error = true ∧ r.2.1.uptodate = false :=
  ⟨⟨linux_debug_wf, fun _ => ⟨rfl, by decide⟩⟩,
    (zpl_readpage_success_iff linux_debug linux_debug_wf (scripted 0 3) w0 page0
      (fun _ => ⟨rfl, by decide⟩)).imp
      fun _ h => ⟨h.1, (h.2.2.2.2.1 (by decide) (by decide) (by decide)).2⟩⟩

/-- C3 (amended): for every write-back whose transfer returns anything but
`len` (in particular a short write: engine status 0 and a residual
`0 < r ≤ len`), `zpl_writepage` returns `-EIO`, sets the page's error flag
and clears the page's up-to-date flag, whatever it was before the call, and
unlocks the page. -/
theorem zpl_writepage_short {σ : Type} (K : Kernel) (hK : K.wf) (E : Engine σ)
    (w : World σ) (pp : page) (hpre : K.debug = true → pp.locked = true) :
    ∃ r, zpl_writepage K E w pp = some r ∧
      ((page_write K E w pp).1 ≠ page_len K E w pp →
        r.1 = -K.EIO ∧ r.1 ≠ 0 ∧ r.2.1.error = true ∧ r.2.1.uptodate = false ∧
        r.2.1.locked = false) ∧
      ((E.zfs_write w.ip (uio_init K pp.mem (page_len K E w pp) (page_offset pp)
            uio_seg_t.UIO_SYSSPACE) K.O_DIRECT K.cred).1 = 0 →
        0 < (E.zfs_write w.ip (uio_init K pp.mem (page_len K E w pp) (page_offset pp)
            uio_seg_t.UIO_SYSSPACE) K.O_DIRECT K.cred).2.1.uio_resid →
        (E.zfs_write w.ip (uio_init K pp.mem (page_len K E w pp) (page_offset pp)
            uio_seg_t.UIO_SYSSPACE) K.O_DIRECT K.cred).2.1.uio_resid ≤ page_len K E w pp →
        (page_write K E w pp).1 < page_len K E w pp ∧
        r.1 = -K.EIO ∧ r.1 ≠ 0 ∧ r.2.1.error = true ∧ r.2.1.uptodate = false ∧
        r.2.1.locked = false) := by
  obtain ⟨r, hr, hst, _, herr, hup, hlk, _, _⟩ := zpl_writepage_run K E w pp hpre
  have hiff := page_write_ne_iff K hK E w pp
  obtain ⟨he1, he2⟩ := neg_EIO K hK
  have hlen := page_len_lt K hK E w pp
  have hfail : (page_write K E w pp).1 ≠ page_len K E w pp →
      r.1 = -K.EIO ∧ r.1 ≠ 0 ∧ r.2.1.error = true ∧ r.2.1.uptodate = false ∧
      r.2.1.locked = false := by
    intro hne
    have hne2 : to_size_t (page_write K E w pp).1 ≠ page_len K E w pp := fun h => hne (hiff.1 h)
    rw [if_pos hne2, he1] at hst
    have h0 : r.1 ≠ 0 := by rw [hst]; exact he2
    refine ⟨hst, h0, ?_, ?_, hlk⟩
    · rw [herr]; exact decide_eq_true h0
    · rw [hup]; exact decide_eq_false h0
  refine ⟨r, hr, hfail, ?_⟩
  intro h0 h1 h2
  have hv := zpl_write_common_ok K E w pp.mem (page_len K E w pp) (page_offset pp)
    uio_seg_t.UIO_SYSSPACE K.O_DIRECT K.cred h0
  rw [to_ssize_t_of_range _ (by omega) (by omega)] at hv
  have hlt : (page_write K E w pp).1 < page_len K E w pp := by
    unfold page_write
    rw [hv]
    omega
  exact ⟨hlt, hfail (by omega)⟩

/-- C3, on the up-to-date page at offset 0 of a 10-byte file, with an engine
that writes 7 of the 10 bytes (residual 3): `zpl_writepage` returns -5 with
the error flag set and the up-to-date flag cleared. -/
theorem zpl_writepage_short_witness :
    (linux_debug.wf ∧ (linux_debug.debug = true → page0_dirty.locked = true)) ∧
    ∃ r, zpl_writepage linux_debug (scripted 0 3) w0 page0_dirty = some r ∧
      r.1 = -linux_debug.EIO ∧ r.1 ≠ 0 ∧ r.2.1.error = true ∧ r.2.1.uptodate = false ∧
      r.2.1.locked = false :=
  ⟨⟨linux_debug_wf, fun _ => rfl⟩,
    (zpl_writepage_short linux_debug linux_debug_wf (scripted 0 3) w0 page0_dirty
      (fun _ => rfl)).imp
      fun _ h => ⟨h.1, (h.2.2 (by decide) (by decide) (by decide)).2⟩⟩

/-- C3 as stated fails: on an up-to-date page, a short write (7 of 10 bytes)
makes `zpl_writepage` return -5 with the error flag set, and the page's
up-to-date flag is cleared, not left as it was. -/
theorem zpl_writepage_short_counterexample :
    page0_dirty.uptodate = true ∧
    (zpl_write_common linux (scripted 0 3) w0 page0_dirty.mem 10 0 uio_seg_t.UIO_SYSSPACE
      linux.O_DIRECT linux.cred).1 = 7 ∧
    (zpl_writepage linux (scripted 0 3) w0 page0_dirty).map
      (fun r => (r.1, r.2.1.error, r.2.1.uptodate)) = some (-5, true, false) := by
  decide

/-- C4 as stated fails for an engine that reports the error code -5 and the
residual 0 without filling the buffer: `zpl_read_common` takes the negated
status 5 for success and returns the count 10, and `zpl_readpage` on the
page at offset 0 of a 10-byte file returns 0 with the page up to date and
its error flag clear, while the bytes 0 to 9 of the frame are still the
stale 170. -/
theorem zpl_readpage_success_iff_counterexample :
    ((scripted (-5) 0).zfs_read w0.ip
      (uio_init linux page0.mem 10 0 uio_seg_t.UIO_SYSSPACE) linux.O_DIRECT linux.cred).1
      = -5 ∧
    page_len linux (scripted (-5) 0) w0 page0 = 10 ∧
    (page_read linux (scripted (-5) 0) w0 page0).1 = 10 ∧
    (zpl_readpage linux (scripted (-5) 0) w0 page0).map
      (fun r => (r.1, r.2.1.uptodate, r.2.1.error, r.2.1.mem 0, r.2.1.mem 9))
      = some (0, true, false, 170, 170) ∧
    (zpl_readpage linux_debug (scripted (-5) 0) w0 page0).map
      (fun r => (r.1, r.2.1.uptodate, r.2.1.error, r.2.1.mem 0, r.2.1.mem 9))
      = some (0, true, false, 170, 170) := by
  decide

/-! ## Filling a page -/

/-- C1: for every file size `S` and every offset `o` with `0 ≤ o < S`, when
the engine read satisfies the whole request (status 0, residual 0, and the
buffer holding the file's bytes `content` at `[o, o+len)`), `zpl_readpage`
asks the engine for `len = min(PAGE_CACHE_SIZE, S - o)` bytes at `o`,
returns 0, marks the page up to date with its error flag cleared, leaves
the first `len` bytes of the page equal to the file's bytes at `[o, o+len)`
and every page byte at index `len .. PAGE_CACHE_SIZE - 1` equal to zero.  On
the last partial page (`S mod PAGE_CACHE_SIZE ≠ 0`,
`o = S - S mod PAGE_CACHE_SIZE`) `len = S mod PAGE_CACHE_SIZE`, so exactly
the `PAGE_CACHE_SIZE - S mod PAGE_CACHE_SIZE` trailing bytes are zeroed. -/
theorem zpl_readpage_fill {σ : Type} (K : Kernel) (hK : K.wf) (E : Engine σ) (w : World σ)
    (pp : page) (content : Nat → Nat) (S o : Int)
    (hS : E.i_size_read w.ip = S) (ho : page_offset pp = o)
    (ho0 : 0 ≤ o) (hoS : o < S) (hS63 : S < 2 ^ 63) (hl : K.debug = true → pp.locked = true)
    (hrc : (E.zfs_read w.ip (uio_init K pp.mem (page_len K E w pp) o
      uio_seg_t.UIO_SYSSPACE) K.O_DIRECT K.cred).1 = 0)
    (hres : (E.zfs_read w.ip (uio_init K pp.mem (page_len K E w pp) o
      uio_seg_t.UIO_SYSSPACE) K.O_DIRECT K.cred).2.1.uio_resid = 0)
    (hbytes : ∀ i, i < page_len K E w pp →
      (E.zfs_read w.ip (uio_init K pp.mem (page_len K E w pp) o
        uio_seg_t.UIO_SYSSPACE) K.O_DIRECT K.cred).2.2.1 i = content (o.toNat + i)) :
    page_len K E w pp = min K.PAGE_CACHE_SIZE (S - o).toNat ∧
    ∃ r, zpl_readpage K E w pp = some r ∧
      r.1 = 0 ∧ r.2.1.uptodate = true ∧ r.2.1.error = false ∧
      r.2.2.trace = w.trace ++ [EngineCall.read
        (uio_init K pp.mem (min K.PAGE_CACHE_SIZE (S - o).toNat) o uio_seg_t.UIO_SYSSPACE)
        K.O_DIRECT K.cred] ∧
      (∀ i, i < min K.PAGE_CACHE_SIZE (S - o).toNat → r.2.1.mem i = content (o.toNat + i)) ∧
      (∀ i, min K.PAGE_CACHE_SIZE (S - o).toNat ≤ i → i < K.PAGE_CACHE_SIZE →
        r.2.1.mem i = 0) ∧
      (S % K.PAGE_CACHE_SIZE ≠ 0 → o = S - S % K.PAGE_CACHE_SIZE →
        min K.PAGE_CACHE_SIZE (S - o).toNat = (S % K.PAGE_CACHE_SIZE).toNat ∧
        ∀ i, (S % K.PAGE_CACHE_SIZE).toNat ≤ i → i < K.PAGE_CACHE_SIZE → r.2.1.mem i = 0) := by
  have hlen : page_len K E w pp = min K.PAGE_CACHE_SIZE (S - o).toNat := by
    unfold page_len
    rw [hS, ho]
    exact MIN_of_nonneg _ _ (by omega) (by omega)
  have hP := hK.2.1
  obtain ⟨r, hr, hst, hmem, herr, hup, _, _, hw⟩ :=
    zpl_readpage_run K E w pp (fun hd => ⟨hl hd, by rw [hS, ho]; exact hoS⟩)
  have hv : (page_read K E w pp).1 = page_len K E w pp := by
    unfold page_read
    rw [ho, zpl_read_common_ok K E w pp.mem (page_len K E w pp) o
      uio_seg_t.UIO_SYSSPACE K.O_DIRECT K.cred hrc, hres,
      to_ssize_t_of_range _ (by omega) (by omega)]
    omega
  have hbuf : (page_read K E w pp).2.1 = (E.zfs_read w.ip (uio_init K pp.mem
      (page_len K E w pp) o uio_seg_t.UIO_SYSSPACE) K.O_DIRECT K.cred).2.2.1 := by
    unfold page_read
    rw [ho]
    exact zpl_read_common_buf K E w pp.mem (page_len K E w pp) o
      uio_seg_t.UIO_SYSSPACE K.O_DIRECT K.cred
  have h0 : r.1 = 0 := by
    rw [hst, if_neg (not_not.2 ((page_read_ne_iff K hK E w pp).2 hv))]
  have hlow : ∀ i, i < page_len K E w pp → r.2.1.mem i = content (o.toNat + i) := by
    intro i hi
    rw [hmem, ← hbytes i hi, hbuf]
    split
    · unfold memset
      rw [if_neg (by omega)]
    · rfl
  have hhigh : ∀ i, page_len K E w pp ≤ i → i < K.PAGE_CACHE_SIZE → r.2.1.mem i = 0 := by
    intro i hi1 hi2
    rw [hmem, if_pos ⟨h0, by omega⟩]
    unfold memset
    rw [if_pos ⟨hi1, by omega⟩]
  have htr : r.2.2.trace = w.trace ++ [EngineCall.read
      (uio_init K pp.mem (page_len K E w pp) o uio_seg_t.UIO_SYSSPACE) K.O_DIRECT K.cred] := by
    rw [hw]
    unfold page_read
    rw [zpl_read_common_world, ho]
  rw [hlen] at hlow hhigh htr
  refine ⟨hlen, r, hr, h0, ?_, ?_, htr, hlow, hhigh, ?_⟩
  · rw [hup]; exact decide_eq_true h0
  · rw [herr]; exact decide_eq_false (not_not.2 h0)
  · intro hmod hoeq
    have hP0 := hK.1
    have hm0 : 0 ≤ S % (K.PAGE_CACHE_SIZE : Int) :=
      Int.emod_nonneg _ (by omega)
    have hm1 : S % (K.PAGE_CACHE_SIZE : Int) < K.PAGE_CACHE_SIZE :=
      Int.emod_lt_of_pos _ (by omega)
    have hmin : min K.PAGE_CACHE_SIZE (S - o).toNat = (S % K.PAGE_CACHE_SIZE).toNat := by
      rw [hoeq]
      omega
    refine ⟨hmin, ?_⟩
    rw [← hmin]
    exact hhigh

/-- C1, the scenario of a 10-byte file with 4096-byte pages over the byte
store: `zpl_readpage` on the page at offset 0 asks the engine for 10 bytes,
returns 0 with the page up to date and its error flag cleared, the first 10
bytes of the page are the file's and the 4086 bytes from index 10 to 4095
are zero. -/
theorem zpl_readpage_fill_witness :
    (linux.wf ∧ storeEngine.i_size_read ws10.ip = 10 ∧ page_offset page0 = 0 ∧
      (0 : Int) ≤ 0 ∧ (0 : Int) < 10 ∧ (10 : Int) < 2 ^ 63 ∧
      (linux.debug = true → page0.locked = true) ∧
      (10 : Int) % linux.PAGE_CACHE_SIZE ≠ 0 ∧ (0 : Int) = 10 - 10 % linux.PAGE_CACHE_SIZE) ∧
    page_len linux storeEngine ws10 page0 = 10 ∧
    ∃ r, zpl_readpage linux storeEngine ws10 page0 = some r ∧
      r.1 = 0 ∧ r.2.1.uptodate = true ∧ r.2.1.error = false ∧
      r.2.2.trace = [EngineCall.read (uio_init linux page0.mem 10 0 uio_seg_t.UIO_SYSSPACE)
        linux.O_DIRECT linux.cred] ∧
      (∀ i, i < 10 → r.2.1.mem i = store10.bytes (0 + i)) ∧
      (∀ i, 10 ≤ i → i < 4096 → r.2.1.mem i = 0) ∧
      4096 - 10 = 4086 :=
  ⟨⟨linux_wf, rfl, rfl, by decide, by decide, by decide, fun _ => rfl, by decide, by decide⟩,
    (zpl_readpage_fill linux linux_wf storeEngine ws10 page0 store10.bytes 10 0 rfl rfl
      (by decide) (by decide) (by decide) (fun _ => rfl) (by decide) (by decide)
      (by decide)).1,
    (zpl_readpage_fill linux linux_wf storeEngine ws10 page0 store10.bytes 10 0 rfl rfl
      (by decide) (by decide) (by decide) (fun _ => rfl) (by decide) (by decide)
      (by decide)).2.imp
      fun _ h => ⟨h.1, h.2.1, h.2.2.1, h.2.2.2.1, h.2.2.2.2.1, h.2.2.2.2.2.1,
        (h.2.2.2.2.2.2.2 (by decide) (by decide)).2, by decide⟩⟩

/-! ## The request of the page handlers -/

/-- For a page at or below the file size the length is the minimum of the
page size and the distance to the end of the file. -/
theorem page_len_in_file {σ : Type} (K : Kernel) (E : Engine σ) (w : World σ) (pp : page)
    (h0 : page_offset pp ≤ E.i_size_read w.ip)
    (h1 : E.i_size_read w.ip - page_offset pp < 2 ^ 63) :
    page_len K E w pp = min K.PAGE_CACHE_SIZE (E.i_size_read w.ip - page_offset pp).toNat := by
  unfold page_len
  exact MIN_of_nonneg _ _ (by omega) h1

/-- For a page exactly at the file size the length is zero. -/
theorem page_len_at_eof {σ : Type} (K : Kernel) (E : Engine σ) (w : World σ) (pp : page)
    (h0 : page_offset pp = E.i_size_read w.ip) : page_len K E w pp = 0 := by
  rw [page_len_in_file K E w pp (by omega) (by omega)]
  omega

/-- For a page strictly beyond the file size the difference
`i_size - off` is negative, the unsigned comparison of `MIN` takes it for a
huge value, and the length is the whole page. -/
theorem page_len_beyond_eof {σ : Type} (K : Kernel) (hK : K.wf) (E : Engine σ) (w : World σ)
    (pp : page) (h0 : E.i_size_read w.ip < page_offset pp)
    (h1 : -(2 ^ 63) ≤ E.i_size_read w.ip - page_offset pp) :
    page_len K E w pp = K.PAGE_CACHE_SIZE := by
  unfold page_len
  exact MIN_of_neg _ _ hK.2.1 (by omega) h1

/-- C2 at the failing input: a 10-byte file in the byte store and the dirty
page at offset 4096, beyond the file size.  `zpl_writepage` computes the
length 4096, not 0, asks the engine to write 4096 bytes at offset 4096, and
returns 0 with the file grown to 8192 bytes. -/
theorem zpl_writepage_beyond_eof :
    storeEngine.i_size_read ws10.ip = 10 ∧ page_offset page1_dirty = 4096 ∧
    page_len linux storeEngine ws10 page1_dirty = 4096 ∧
    (zpl_writepage linux storeEngine ws10 page1_dirty).map (fun r => r.2.2.trace) =
      some [EngineCall.write (uio_init linux page1_dirty.mem 4096 4096 uio_seg_t.UIO_SYSSPACE)
        linux.O_DIRECT linux.cred] ∧
    (uio_init linux page1_dirty.mem 4096 4096 uio_seg_t.UIO_SYSSPACE).uio_resid = 4096 ∧
    (zpl_writepage linux storeEngine ws10 page1_dirty).map (fun r => (r.1, r.2.2.ip.size)) =
      some (0, 8192) :=
  ⟨by decide, by decide, by decide, rfl, by decide, by decide⟩

/-- The byte store's write when nothing of the request fits (or the request
is empty): the store is unchanged. -/
theorem Store.zfs_write_none (s : Store) (u : uio_t) (flags : Int) (cr : Nat)
    (h0 : 0 ≤ u.uio_loffset)
    (hn : min u.uio_resid.toNat (s.capacity - u.uio_loffset.toNat) = 0) :
    Store.zfs_write s u flags cr = ((if 0 < u.uio_resid then 28 else 0), u, s) := by
  unfold Store.zfs_write
  rw [if_neg (by omega)]
  dsimp only
  rw [if_pos hn]

/-- The byte store's write when some of the request fits: the bytes that
fit are stored at the offset and the rest is the residual. -/
theorem Store.zfs_write_some (s : Store) (u : uio_t) (flags : Int) (cr : Nat)
    (h0 : 0 ≤ u.uio_loffset)
    (hn : min u.uio_resid.toNat (s.capacity - u.uio_loffset.toNat) ≠ 0) :
    Store.zfs_write s u flags cr =
      (0, { u with
          uio_resid := u.uio_resid -
            (min u.uio_resid.toNat (s.capacity - u.uio_loffset.toNat) : Nat)
          uio_loffset := u.uio_loffset +
            (min u.uio_resid.toNat (s.capacity - u.uio_loffset.toNat) : Nat) },
        { s with
          size := max s.size (u.uio_loffset.toNat +
            min u.uio_resid.toNat (s.capacity - u.uio_loffset.toNat))
          bytes := fun j => if u.uio_loffset.toNat ≤ j ∧ j < u.uio_loffset.toNat +
              min u.uio_resid.toNat (s.capacity - u.uio_loffset.toNat)
            then u.uio_iov.iov_base (j - u.uio_loffset.toNat) else s.bytes j }) := by
  unfold Store.zfs_write
  rw [if_neg (by omega)]
  dsimp only
  rw [if_neg hn]

/-- Over the byte store, a transfer by `zpl_write_common` that returns `len`
has stored the `len` bytes of the buffer at the offset, changed no other
byte, and left a file that covers them. -/
theorem store_write_all (K : Kernel) (s : Store) (buf : Buf) (len : Nat) (o : Int)
    (seg : uio_seg_t) (flags : Int) (cr : Nat) (ho : 0 ≤ o) (hlen : len < 2 ^ 63)
    (tr : List EngineCall)
    (hres : (zpl_write_common K storeEngine { ip := s, trace := tr } buf len o seg flags cr).1
      = len) :
    (∀ j, (Store.zfs_write s (uio_init K buf len o seg) flags cr).2.2.bytes j =
      if o.toNat ≤ j ∧ j < o.toNat + len then buf (j - o.toNat) else s.bytes j) ∧
    len ≤ (Store.zfs_write s (uio_init K buf len o seg) flags cr).2.2.size - o.toNat := by
  have hlen2 : to_ssize_t (len : Int) = len := to_ssize_t_of_range _ (by omega) (by omega)
  have hu1 : (uio_init K buf len o seg).uio_loffset = o := rfl
  have hu2 : (uio_init K buf len o seg).uio_resid = len := hlen2
  have hu3 : (uio_init K buf len o seg).uio_iov.iov_base = buf := rfl
  by_cases hn : min (uio_init K buf len o seg).uio_resid.toNat
      (s.capacity - (uio_init K buf len o seg).uio_loffset.toNat) = 0
  · have hw := Store.zfs_write_none s (uio_init K buf len o seg) flags cr (by rw [hu1]; exact ho) hn
    by_cases hz : len = 0
    · rw [hw]
      subst hz
      refine ⟨fun j => ?_, Nat.zero_le _⟩
      show s.bytes j = _
      rw [if_neg (by omega)]
    · exfalso
      have hrc : (storeEngine.zfs_write (World.mk s tr).ip (uio_init K buf len o seg) flags cr).1
          = 28 := by
        show (Store.zfs_write s (uio_init K buf len o seg) flags cr).1 = 28
        rw [hw, hu2]
        dsimp only
        rw [if_pos (by omega)]
      have hv := zpl_write_common_err K storeEngine { ip := s, trace := tr } buf len o seg
        flags cr (by rw [hrc]; decide) (by rw [hrc]; decide)
      rw [hv, hrc] at hres
      omega
  · have hw := Store.zfs_write_some s (uio_init K buf len o seg) flags cr (by rw [hu1]; exact ho) hn
    have hrc : (storeEngine.zfs_write (World.mk s tr).ip (uio_init K buf len o seg) flags cr).1
        = 0 := by
      show (Store.zfs_write s (uio_init K buf len o seg) flags cr).1 = 0
      rw [hw]
    have hv := zpl_write_common_ok K storeEngine { ip := s, trace := tr } buf len o seg
      flags cr hrc
    have hrs : (storeEngine.zfs_write (World.mk s tr).ip (uio_init K buf len o seg) flags
        cr).2.1.uio_resid = (len : Int) -
          (min (len : Int).toNat (s.capacity - o.toNat) : Nat) := by
      show (Store.zfs_write s (uio_init K buf len o seg) flags cr).2.1.uio_resid = _
      rw [hw]
      dsimp only
      rw [hu2, hu1]
    rw [hv, hrs, to_ssize_t_of_range _ (by omega) (by omega)] at hres
    have hfull : min (len : Int).toNat (s.capacity - o.toNat) = len := by omega
    rw [hw]
    dsimp only
    rw [hu1, hu2, hu3, hfull]
    refine ⟨fun j => rfl, ?_⟩
    omega


/-- Over the byte store, a read of `len` bytes that lie below the file size
satisfies the whole request: status 0, residual 0, the buffer holding the
file's bytes, the store unchanged. -/
theorem store_read_all (K : Kernel) (s : Store) (buf : Buf) (len : Nat) (o : Int)
    (seg : uio_seg_t) (flags : Int) (cr : Nat) (ho : 0 ≤ o) (hlen : len < 2 ^ 63)
    (hcover : len ≤ s.size - o.toNat) :
    (Store.zfs_read s (uio_init K buf len o seg) flags cr).1 = 0 ∧
    (Store.zfs_read s (uio_init K buf len o seg) flags cr).2.1.uio_resid = 0 ∧
    (∀ i, i < len →
      (Store.zfs_read s (uio_init K buf len o seg) flags cr).2.2.1 i = s.bytes (o.toNat + i)) ∧
    (Store.zfs_read s (uio_init K buf len o seg) flags cr).2.2.2 = s := by
  have hlen2 : to_ssize_t (len : Int) = len := to_ssize_t_of_range _ (by omega) (by omega)
  have hu1 : (uio_init K buf len o seg).uio_loffset = o := rfl
  have hu2 : (uio_init K buf len o seg).uio_resid = len := hlen2
  have hmin : min (len : Int).toNat (s.size - o.toNat) = len := by omega
  unfold Store.zfs_read
  rw [hu1, hu2, if_neg (by omega)]
  dsimp only
  rw [hmin]
  refine ⟨rfl, by omega, fun i hi => ?_, rfl⟩
  rw [if_pos hi]

/-- The round trip of a write-back over the byte store, stated with the
length `zpl_writepage` computes: after a successful `zpl_writepage`, a read
of `page_len` bytes at the page's offset returns the first `page_len` bytes
of the page frame, and the bytes of the store outside
`[off, off + page_len)` are unchanged.  For a page at or below the file size
`page_len` is `min(PAGE_CACHE_SIZE, i_size - off)`. -/
theorem zpl_writepage_roundtrip_in_store (K : Kernel) (hK : K.wf) (s : Store)
    (tr : List EngineCall) (pp : page) (hl : K.debug = true → pp.locked = true)
    (ho0 : 0 ≤ page_offset pp) (ho1 : page_offset pp < 2 ^ 63) (hS : (s.size : Int) < 2 ^ 63)
    (r : Int × page × World Store)
    (hr : zpl_writepage K storeEngine { ip := s, trace := tr } pp = some r) (hok : r.1 = 0) :
    (page_offset pp ≤ s.size →
      page_len K storeEngine { ip := s, trace := tr } pp =
        min K.PAGE_CACHE_SIZE (s.size - (page_offset pp).toNat)) ∧
    (∀ (buf : Buf) (flags : Int) (cr : Nat),
      (storeEngine.zfs_read r.2.2.ip (uio_init K buf
        (page_len K storeEngine { ip := s, trace := tr } pp) (page_offset pp)
        uio_seg_t.UIO_SYSSPACE) flags cr).1 = 0 ∧
      (storeEngine.zfs_read r.2.2.ip (uio_init K buf
        (page_len K storeEngine { ip := s, trace := tr } pp) (page_offset pp)
        uio_seg_t.UIO_SYSSPACE) flags cr).2.1.uio_resid = 0 ∧
      ∀ i, i < page_len K storeEngine { ip := s, trace := tr } pp →
        (storeEngine.zfs_read r.2.2.ip (uio_init K buf
          (page_len K storeEngine { ip := s, trace := tr } pp) (page_offset pp)
          uio_seg_t.UIO_SYSSPACE) flags cr).2.2.1 i = pp.mem i) ∧
    (∀ j, ¬ ((page_offset pp).toNat ≤ j ∧
        j < (page_offset pp).toNat + page_len K storeEngine { ip := s, trace := tr } pp) →
      r.2.2.ip.bytes j = s.bytes j) := by
  have hlen := page_len_lt K hK storeEngine { ip := s, trace := tr } pp
  obtain ⟨r2, hr2, hst, _, _, _, _, _, hw⟩ :=
    zpl_writepage_run K storeEngine { ip := s, trace := tr } pp hl
  rw [hr] at hr2
  cases hr2
  obtain ⟨he1, he2⟩ := neg_EIO K hK
  have hv : (page_write K storeEngine { ip := s, trace := tr } pp).1 =
      page_len K storeEngine { ip := s, trace := tr } pp := by
    by_contra hne
    have hne2 : to_size_t (page_write K storeEngine { ip := s, trace := tr } pp).1 ≠
        page_len K storeEngine { ip := s, trace := tr } pp :=
      fun h => hne ((page_write_ne_iff K hK storeEngine _ pp).1 h)
    rw [if_pos hne2, he1] at hst
    exact he2 (hst.symm.trans hok)
  have hip : r.2.2.ip = (Store.zfs_write s (uio_init K pp.mem
      (page_len K storeEngine { ip := s, trace := tr } pp) (page_offset pp)
      uio_seg_t.UIO_SYSSPACE) K.O_DIRECT K.cred).2.2 := by
    rw [hw]
    unfold page_write
    rw [zpl_write_common_world]
    rfl
  obtain ⟨hbytes, hcover⟩ := store_write_all K s pp.mem
    (page_len K storeEngine { ip := s, trace := tr } pp) (page_offset pp)
    uio_seg_t.UIO_SYSSPACE K.O_DIRECT K.cred ho0 hlen tr hv
  rw [← hip] at hbytes hcover
  refine ⟨fun hle => ?_, fun buf flags cr => ?_, fun j hj => ?_⟩
  · rw [page_len_in_file K storeEngine { ip := s, trace := tr } pp hle
      (by show (s.size : Int) - page_offset pp < 2 ^ 63; omega)]
    show min K.PAGE_CACHE_SIZE ((s.size : Int) - page_offset pp).toNat = _
    omega
  · obtain ⟨h1, h2, h3, _⟩ := store_read_all K r.2.2.ip buf
      (page_len K storeEngine { ip := s, trace := tr } pp) (page_offset pp)
      uio_seg_t.UIO_SYSSPACE flags cr ho0 hlen hcover
    refine ⟨h1, h2, fun i hi => ?_⟩
    have h4 := h3 i hi
    rw [hbytes, if_pos (by omega)] at h4
    rw [show storeEngine.zfs_read = Store.zfs_read from rfl, h4]
    congr 1
    omega
  · rw [hbytes, if_neg hj]

set_option maxRecDepth 8192 in
/-- C6 at the failing input: a 10-byte file in the byte store and the dirty
page at offset 4096, beyond the file size, so that
`min(page_size, file_size - o)` is -4086 and `[o, o+len)` is empty.
`zpl_writepage` succeeds (returns 0), yet the engine's byte at offset 4096
changes from 0 to the page's first byte 20 and the file grows from 10 to
8192 bytes: bytes outside `[o, o+len)` are changed. -/
theorem zpl_writepage_roundtrip_beyond_eof :
    storeEngine.i_size_read ws10.ip = 10 ∧ page_offset page1_dirty = 4096 ∧
    min (linux.PAGE_CACHE_SIZE : Int) (storeEngine.i_size_read ws10.ip
      - page_offset page1_dirty) = -4086 ∧
    store10.bytes 4096 = 0 ∧ page1_dirty.mem 0 = 20 ∧
    (zpl_writepage linux storeEngine ws10 page1_dirty).map
      (fun r => (r.1, r.2.2.ip.bytes 4096, r.2.2.ip.size)) = some (0, 20, 8192) := by
  refine ⟨by decide, by decide, by decide, by decide, by decide, ?_⟩
  decide

end Zpl
